import Mathlib

/-
  Verification of the mongo-data-access facade (promise-based module and
  the callback-based mongo.js variant).

  The JavaScript source is shallowly embedded: each operation's synchronous
  validation phase and its driver-callback phase become pure Lean functions.
  Mutation of caller-supplied objects is made observable by returning the
  post-call value of the object alongside the promise outcome.
-/

/-! ### JavaScript value modelling -/

/-- A JS number-or-undefined argument. `none` models `undefined` and the
`NaN` it produces in arithmetic; `some n` a number. -/
abbrev JSNum := Option Int

def jsNumTruthy : JSNum → Bool
  | none => false
  | some n => n != 0

def jsMul : JSNum → JSNum → JSNum
  | some a, some b => some (a * b)
  | _, _ => none

def jsAdd : JSNum → JSNum → JSNum
  | some a, some b => some (a + b)
  | _, _ => none

def jsSub : JSNum → JSNum → JSNum
  | some a, some b => some (a - b)
  | _, _ => none

/-- JS `x >= b` where `x` may be `NaN`/`undefined` (comparison is then false). -/
def jsGe : JSNum → Int → Bool
  | some a, b => decide (a ≥ b)
  | none, _ => false

/-- JS `x > b` where `x` may be `NaN`/`undefined` (comparison is then false). -/
def jsGt : JSNum → Int → Bool
  | some a, b => decide (a > b)
  | none, _ => false

/-- `ToIntegerOrInfinity` as used by `Array.prototype.slice`: `NaN` becomes 0. -/
def jsToIdx : JSNum → Int
  | some a => a
  | none => 0

/-- `Array.prototype.slice(start, stop)`: negative indices count from the end,
indices are clamped to `[0, length]`, and the result is empty when the
normalized stop does not exceed the normalized start. -/
def jsSlice {α : Type} (xs : List α) (start stop : Int) : List α :=
  let len : Int := xs.length
  let s : Int := if start < 0 then max (len + start) 0 else min start len
  let e : Int := if stop < 0 then max (len + stop) 0 else min stop len
  (xs.drop s.toNat).take (e - s).toNat

/-- A general JS argument as accepted by `remove`'s `justOne` parameter. -/
inductive JSArg where
  | undef
  | jsBool (b : Bool)
  | jsNum (n : Int)
  | jsStr (s : String)
deriving DecidableEq, Repr

def jsArgTruthy : JSArg → Bool
  | JSArg.undef => false
  | JSArg.jsBool b => b
  | JSArg.jsNum n => n != 0
  | JSArg.jsStr s => decide (s ≠ "")

/-! ### Identifiers and documents -/

/-- A document identifier value: either the hexadecimal string form or the
store's native ObjectID built from such a string (`new ObjectID(s)`). -/
inductive IdVal where
  | strId (s : String)
  | objId (s : String)
deriving DecidableEq, Repr

/-- `getBsonObjectId` from the promise-based module: `new ObjectID(id)`. -/
def getBsonObjectId (s : String) : IdVal := IdVal.objId s

/-- A document: an optional `_id` field plus the remaining fields.
The payload type of the remaining fields is immaterial to the claims. -/
structure Document where
  _id : Option IdVal
  fields : List (String × Int)
deriving DecidableEq, Repr

/-- JS truthiness of a document's `_id` member (`if (document._id)`):
absent and the empty string are falsy, ObjectIDs are always truthy. -/
def idTruthy : Option IdVal → Bool
  | none => false
  | some (IdVal.strId s) => decide (s ≠ "")
  | some (IdVal.objId _) => true

/-! ### `connect` -/

/-- The `settings` argument of `connect`: absent/falsy, a non-object value,
or an object with optional `host`, `user` and `password` members. -/
inductive ConnectArg where
  | undef
  | nonObject
  | obj (host : Option String) (user : Option String) (password : Option String)
deriving DecidableEq, Repr

/-- JS truthiness of an optional string member. -/
def strTruthy : Option String → Bool
  | none => false
  | some s => decide (s ≠ "")

/-- What the caller of `connect` observes synchronously: either a thrown
configuration error, or a normal return after `mongoClient.connect(host, cb)`
has been initiated with the given host and captured credentials. -/
inductive SyncResult where
  | thrown (msg : String)
  | connectCalled (host : String) (user : Option String) (password : Option String)
deriving DecidableEq, Repr

def SyncResult.isThrown : SyncResult → Bool
  | SyncResult.thrown _ => true
  | _ => false

/-- The synchronous phase of `connect` in the promise-based module:
validate `settings`, then hand `host` to the driver. -/
def connectSync : ConnectArg → SyncResult
  | ConnectArg.undef =>
      SyncResult.thrown "settings argument must be an object"
  | ConnectArg.nonObject =>
      SyncResult.thrown "settings argument must be an object"
  | ConnectArg.obj none _ _ =>
      SyncResult.thrown "Host address for MongoDB is required."
  | ConnectArg.obj (some h) user password =>
      if h = "" then SyncResult.thrown "Host address for MongoDB is required."
      else SyncResult.connectCalled h user password

/-- What happens inside the asynchronous driver callbacks of `connect`:
an error re-thrown inside the callback (uncaught, never delivered to the
caller of `connect`), a logged message, or nothing notable. -/
inductive CallbackEffect where
  | thrownInCallback (stage : String)
  | logged (msg : String)
  | ok
deriving DecidableEq, Repr

def CallbackEffect.isLoggedOnly : CallbackEffect → Bool
  | CallbackEffect.logged _ => true
  | _ => false

/-- The `mongoClient.connect` callback of the promise-based module:
re-throws a connect error; when `user && pass`, re-throws an
authentication error inside the `authenticate` callback. -/
def connectCallbackPromiseVariant (user password : Option String)
    (connectError authError : Bool) : CallbackEffect :=
  if connectError then CallbackEffect.thrownInCallback "connect"
  else if strTruthy user && strTruthy password then
    if authError then CallbackEffect.thrownInCallback "authenticate"
    else CallbackEffect.ok
  else CallbackEffect.ok

/-- The `_mongoClient.connect` callback of `mongo.js`: re-throws a connect
error; when `user` is truthy, an authentication error is only logged. -/
def connectCallbackMongoJs (user : Option String)
    (connectError authError : Bool) : CallbackEffect :=
  if connectError then CallbackEffect.thrownInCallback "connect"
  else if strTruthy user then
    if authError then CallbackEffect.logged "Unable to authenticate MongoDB!"
    else CallbackEffect.ok
  else CallbackEffect.ok

/-- Full observable behaviour of `connect` in the promise-based module:
the synchronous result seen by the caller, paired with the effect of the
asynchronous callbacks (which run after `connect` has already returned). -/
def connectPromiseVariant (arg : ConnectArg) (connectError authError : Bool) :
    SyncResult × CallbackEffect :=
  match connectSync arg with
  | SyncResult.thrown m => (SyncResult.thrown m, CallbackEffect.ok)
  | SyncResult.connectCalled h u p =>
      (SyncResult.connectCalled h u p,
       connectCallbackPromiseVariant u p connectError authError)

/-! ### `find` -/

/-- Identifier normalization at the top of `find`: a string-typed `_id`
member of the caller's query object is replaced in place by
`new ObjectID(query._id)`. -/
def findNormalizeQuery (query : Document) : Document :=
  match query._id with
  | some (IdVal.strId s) => { query with _id := some (getBsonObjectId s) }
  | _ => query

/-- How the `find` promise settles. `single` models `resolve(data[0])`
(`none` is JS `undefined` on an empty array); `arr` models `resolve(data)`;
`nullRes` models `resolve(null)`; `rejected` models `reject(error)`. -/
inductive FindOutcome (α : Type) where
  | single (d : Option α)
  | arr (ds : List α)
  | nullRes
  | rejected
deriving DecidableEq, Repr

/-- The in-process pagination block of `find` (promise-based module),
executed when more than one document was fetched and `page` is a positive
number. `limit` is carried as a raw JS number since the block uses it
without any validity check. -/
def paginate {α : Type} (limit : JSNum) (page : Int) (data : List α) : List α :=
  let maxIndex : Int := (data.length : Int) - 1
  let startIndex0 : JSNum := jsMul (some (page - 1)) limit
  let startIndex : JSNum :=
    if jsGe startIndex0 maxIndex then jsSub startIndex0 limit else startIndex0
  let endIndex0 : JSNum := jsAdd startIndex limit
  let endIndex : JSNum :=
    if jsGt endIndex0 ((data.length : Int) - 1) then some ((data.length : Int) - 1)
    else endIndex0
  jsSlice data (jsToIdx startIndex) (jsToIdx endIndex)

/-- The `toArray` callback of `find` in the promise-based module, deciding
how the promise settles from the fetched array `data`. -/
def findCallback {α : Type} (limit page : JSNum) (error : Bool)
    (data : List α) : FindOutcome α :=
  if error then FindOutcome.rejected
  else if jsNumTruthy limit && decide (limit = some 1) then
    FindOutcome.single data.head?
  else if data.length > 1 then
    if jsNumTruthy page && jsGt page 0 then
      FindOutcome.arr (paginate limit (jsToIdx page) data)
    else FindOutcome.arr data
  else FindOutcome.nullRes

/-- Observable behaviour of `find`: the caller's query object after the
call (capturing the in-place `_id` normalization) together with how the
promise settles on the fetched array `data`. -/
def find {α : Type} (query : Document) (limit page : JSNum) (error : Bool)
    (data : List α) : Document × FindOutcome α :=
  (findNormalizeQuery query, findCallback limit page error data)

/-- The pagination window as the specification words it: the slice of the
fetched array on `[ (page-1)*limit, page*limit )`, clamped to the array
bounds. Stated from the spec for comparison with `paginate`. -/
def specWindow {α : Type} (limit page : Int) (data : List α) : List α :=
  jsSlice data ((page - 1) * limit) (page * limit)

/-! ### `insertOne` -/

/-- How a promise settles when it carries a document on success. -/
inductive PromiseOutcome (α : Type) where
  | resolved (v : α)
  | rejected
deriving DecidableEq, Repr

/-- The relevant parts of the driver's insert result object:
`resultObj.result.n` and `resultObj.insertedIds[0]`. -/
structure InsertResult where
  n : Int
  insertedId : IdVal
deriving DecidableEq, Repr

/-- The `collection.insert` callback of `insertOne`: on a successful
single-document write the issued identifier is written into the caller's
`input` document, and the promise resolves with that document; on error
the promise rejects. Returns the post-call `input` paired with the outcome. -/
def insertOneCallback (input : Document) (error : Bool) (res : InsertResult) :
    Document × PromiseOutcome Document :=
  let input' :=
    if error = false ∧ res.n = 1 then { input with _id := some res.insertedId }
    else input
  if error then (input', PromiseOutcome.rejected)
  else (input', PromiseOutcome.resolved input')

/-! ### `updateDocument` -/

/-- The update command sent to the store by `updateDocument`:
filter `{_id: document._id}` and update `{$set: duplicateDoc}`. -/
structure UpdateCall where
  filterId : Option IdVal
  setDoc : Document
deriving DecidableEq, Repr

/-- How an `updateDocument` call concludes: a rejected promise, a
synchronous throw, or an update sent to the store with the promise then
resolving with the (possibly altered) caller document. -/
inductive UpdateDocResult where
  | rejectedParams (msg : String)
  | thrown (msg : String)
  | sent (call : UpdateCall) (resolvedDoc : Document)
deriving DecidableEq, Repr

/-- `updateDocument` from the promise-based module. Returns the caller's
document as it stands after the call (capturing any in-place mutation)
paired with the observable result. A string `_id` is converted with
`getBsonObjectId` by assignment to `document._id`; the duplicate document
copies every field and then deletes `_id`. -/
def updateDocument (collectionName : String) (document : Option Document) :
    Option Document × UpdateDocResult :=
  match document with
  | none => (none, UpdateDocResult.rejectedParams "All params are required.")
  | some doc =>
    if collectionName = "" then
      (some doc, UpdateDocResult.rejectedParams "All params are required.")
    else if idTruthy doc._id then
      let doc' :=
        match doc._id with
        | some (IdVal.strId s) => { doc with _id := some (getBsonObjectId s) }
        | _ => doc
      let duplicateDoc : Document := { _id := none, fields := doc'.fields }
      (some doc',
       UpdateDocResult.sent { filterId := doc'._id, setDoc := duplicateDoc } doc')
    else
      (some doc, UpdateDocResult.thrown "Document must have an _id property")

/-! ### `pull` -/

/-- The `pullObj` argument of `pull`: absent, JS `null`, a proper object,
or a non-object primitive (with its truthiness). -/
inductive PullArg where
  | undef
  | jsNull
  | objv (d : Document)
  | prim (truthy : Bool)
deriving DecidableEq, Repr

def pullArgTruthy : PullArg → Bool
  | PullArg.undef => false
  | PullArg.jsNull => false
  | PullArg.objv _ => true
  | PullArg.prim t => t

/-- JS `typeof pullObj === 'object'` (true for objects and for `null`). -/
def pullArgTypeofObject : PullArg → Bool
  | PullArg.jsNull => true
  | PullArg.objv _ => true
  | _ => false

/-- How a `pull` call concludes: rejected by the synchronous validation, or
an update `{$pull: pullSpec}` issued to the store. -/
inductive PullOutcome where
  | rejectedValidation (msg : String)
  | storeCalled (findObj : Option Document) (pullSpec : PullArg)
deriving DecidableEq, Repr

def PullOutcome.isStoreCall : PullOutcome → Bool
  | PullOutcome.storeCalled _ _ => true
  | _ => false

/-- `pull` from the promise-based module: validate
`!pullObj || typeof pullObj !== 'object'` before any store interaction. -/
def pull (findObj : Option Document) (pullObj : PullArg) : PullOutcome :=
  if !(pullArgTruthy pullObj) || !(pullArgTypeofObject pullObj) then
    PullOutcome.rejectedValidation "pullObj param must be of type object."
  else PullOutcome.storeCalled findObj pullObj

/-! ### `remove` -/

/-- The arguments handed to `collection.remove(query, {justOne: justOne})`. -/
structure RemoveCall where
  query : Option Document
  justOne : JSArg
deriving DecidableEq, Repr

/-- The store call issued by `remove`, after the defaulting line
`if (!justOne && justOne !== false) justOne = true;`. -/
def removeStoreCall (query : Option Document) (justOne : JSArg) : RemoveCall :=
  let justOne :=
    if !(jsArgTruthy justOne) && decide (justOne ≠ JSArg.jsBool false) then
      JSArg.jsBool true
    else justOne
  { query := query, justOne := justOne }

/-! ### Claim theorems -/

/-- C1 (counterexample): with limit 2, a successful query and exactly one
matched document, the `find` promise resolves with null instead of the
one-element array the claim prescribes for "at least one match". -/
theorem find_single_match_resolves_null_cex :
    findCallback (some 2) none false [(7 : Nat)] = FindOutcome.nullRes ∧
    findCallback (some 2) none false [(7 : Nat)] ≠ FindOutcome.arr [7] := by
  decide

/-- C1 (amended): for a `find` call whose limit is not the number 1 and
whose query succeeded, the promise resolves with an array (the full
fetched array when no positive page number is supplied) whenever more than
one document matched, and resolves with null when zero or exactly one
document matched. -/
theorem find_non_single_limit_resolution {α : Type} (limit page : JSNum)
    (data : List α) (hl : limit ≠ some 1) :
    (1 < data.length → ∃ ds : List α,
        findCallback limit page false data = FindOutcome.arr ds) ∧
    (data.length ≤ 1 →
        findCallback limit page false data = FindOutcome.nullRes) ∧
    ((jsNumTruthy page && jsGt page 0) = false → 1 < data.length →
        findCallback limit page false data = FindOutcome.arr data) := by
  have hg : (jsNumTruthy limit && decide (limit = some 1)) = false := by
    simp [hl]
  refine ⟨fun hlen => ?_, fun hlen => ?_, fun hp hlen => ?_⟩
  · cases hb : (jsNumTruthy page && jsGt page 0) with
    | false => exact ⟨data, by simp [findCallback, hg, hlen, hb]⟩
    | true =>
        exact ⟨paginate limit (jsToIdx page) data,
          by simp [findCallback, hg, hlen, hb]⟩
  · simp [findCallback, hg, Nat.not_lt.mpr hlen]
  · simp [findCallback, hg, hlen, hp]

/-- C1 witness: the amended resolution theorem applied at limit 3, no
page, and the two-element fetched array [5, 6]. -/
theorem find_non_single_limit_resolution_witness :
    (some 3 : JSNum) ≠ some 1 ∧
    ((1 < [(5 : Nat), 6].length → ∃ ds : List Nat,
        findCallback (some 3) none false [(5 : Nat), 6] = FindOutcome.arr ds) ∧
     ([(5 : Nat), 6].length ≤ 1 →
        findCallback (some 3) none false [(5 : Nat), 6] = FindOutcome.nullRes) ∧
     ((jsNumTruthy (none : JSNum) && jsGt none 0) = false →
        1 < [(5 : Nat), 6].length →
        findCallback (some 3) none false [(5 : Nat), 6] = FindOutcome.arr [5, 6])) :=
  ⟨by decide, find_non_single_limit_resolution (some 3) none [(5 : Nat), 6] (by decide)⟩

/-- C2: evaluated at a document carrying a hexadecimal string identifier,
`updateDocument` overwrites the caller's `_id` member in place with the
converted ObjectID, so the caller's document no longer compares equal to
its pre-call value — contradicting the claim and the code's own
"treat user input as immutable" comment. -/
theorem updateDocument_mutates_string_id :
    (updateDocument "users"
        (some { _id := some (IdVal.strId "507f1f77"), fields := [("name", 1)] })).1 =
      some { _id := some (IdVal.objId "507f1f77"), fields := [("name", 1)] } ∧
    (updateDocument "users"
        (some { _id := some (IdVal.strId "507f1f77"), fields := [("name", 1)] })).1 ≠
      some { _id := some (IdVal.strId "507f1f77"), fields := [("name", 1)] } := by
  decide

/-- C3: at fetched array [10, 20] with limit 2 and page 1 the code
resolves the slice [10], while the claimed clamped window [0, 2) is the
whole array [10, 20]: the pagination block caps the slice end at
length - 1 and therefore always drops the last fetched element. -/
theorem find_pagination_drops_last_element :
    findCallback (some 2) (some 1) false [(10 : Nat), 20] = FindOutcome.arr [10] ∧
    specWindow 2 1 [(10 : Nat), 20] = [10, 20] := by
  decide

/-- C4 (counterexample): in the promise-based module, with credentials
supplied and a failing authenticate step, the failure is re-thrown inside
the asynchronous callback and is not logged. -/
theorem connect_auth_failure_not_logged_cex :
    (connectPromiseVariant
        (ConnectArg.obj (some "mongodb://h") (some "admin") (some "pw"))
        false true).2 = CallbackEffect.thrownInCallback "authenticate" ∧
    CallbackEffect.isLoggedOnly
      (connectPromiseVariant
        (ConnectArg.obj (some "mongodb://h") (some "admin") (some "pw"))
        false true).2 = false := by
  decide

/-- C4 (amended): an authentication failure is never propagated to the
caller of `connect` — the synchronous result of `connect` is independent
of both callback error outcomes — but it is only logged in `mongo.js`;
the promise-based module instead re-throws it inside the asynchronous
authenticate callback. -/
theorem connect_auth_failure_behaviour (host user pass : String)
    (hh : host ≠ "") (hu : user ≠ "") (hp : pass ≠ "") :
    (∀ (a : ConnectArg) (cErr aErr : Bool),
        (connectPromiseVariant a cErr aErr).1 = connectSync a) ∧
    (connectPromiseVariant (ConnectArg.obj (some host) (some user) (some pass))
        false true).2 = CallbackEffect.thrownInCallback "authenticate" ∧
    connectCallbackMongoJs (some user) false true =
      CallbackEffect.logged "Unable to authenticate MongoDB!" := by
  refine ⟨?_, ?_, ?_⟩
  · intro a cErr aErr
    cases h : connectSync a <;> simp [connectPromiseVariant, h]
  · simp [connectPromiseVariant, connectSync, hh,
      connectCallbackPromiseVariant, strTruthy, hu, hp]
  · simp [connectCallbackMongoJs, strTruthy, hu]

/-- C4 witness: the amended behaviour theorem applied at a concrete host
and credential pair. -/
theorem connect_auth_failure_behaviour_witness :
    ("mongodb://h" : String) ≠ "" ∧ ("admin" : String) ≠ "" ∧
    ("pw" : String) ≠ "" ∧
    ((∀ (a : ConnectArg) (cErr aErr : Bool),
        (connectPromiseVariant a cErr aErr).1 = connectSync a) ∧
     (connectPromiseVariant
        (ConnectArg.obj (some "mongodb://h") (some "admin") (some "pw"))
        false true).2 = CallbackEffect.thrownInCallback "authenticate" ∧
     connectCallbackMongoJs (some "admin") false true =
       CallbackEffect.logged "Unable to authenticate MongoDB!") :=
  ⟨by decide, by decide, by decide,
   connect_auth_failure_behaviour "mongodb://h" "admin" "pw"
     (by decide) (by decide) (by decide)⟩

/-- C5: a `find` call with limit 1 whose query succeeded with zero matches
resolves with element 0 of the empty fetched array, i.e. undefined, and in
particular does not reject. -/
theorem find_limit_one_zero_matches_resolves_undefined {α : Type} (page : JSNum) :
    findCallback (some 1) page false ([] : List α) = FindOutcome.single none ∧
    findCallback (some 1) page false ([] : List α) ≠ FindOutcome.rejected :=
  ⟨rfl, fun h => FindOutcome.noConfusion h⟩

/-- C5 witness: the limit-1 zero-match theorem at the empty Nat list with
no page argument. -/
theorem find_limit_one_zero_matches_resolves_undefined_witness :
    findCallback (some 1) none false ([] : List Nat) = FindOutcome.single none ∧
    findCallback (some 1) none false ([] : List Nat) ≠ FindOutcome.rejected :=
  find_limit_one_zero_matches_resolves_undefined none

/-- C6: a `connect` call whose settings argument is missing, not an
object, or lacks a host member throws a configuration error synchronously,
and the driver's connect is never invoked. -/
theorem connect_bad_config_fails_fast (arg : ConnectArg)
    (h : arg = ConnectArg.undef ∨ arg = ConnectArg.nonObject ∨
         ∃ u p, arg = ConnectArg.obj none u p) :
    (connectSync arg).isThrown = true ∧
    ∀ (host : String) (u p : Option String),
      connectSync arg ≠ SyncResult.connectCalled host u p := by
  rcases h with h | h | ⟨u, p, h⟩ <;> subst h <;>
    exact ⟨rfl, fun host u' p' hc => SyncResult.noConfusion hc⟩

/-- C6 witness: the fail-fast theorem at a missing settings argument. -/
theorem connect_bad_config_fails_fast_witness :
    (connectSync ConnectArg.undef).isThrown = true ∧
    ∀ (host : String) (u p : Option String),
      connectSync ConnectArg.undef ≠ SyncResult.connectCalled host u p :=
  connect_bad_config_fails_fast ConnectArg.undef (Or.inl rfl)

/-- C7: when the store reports a successful single-document insert (n = 1)
for a document without an identifier, `insertOne` writes the issued
identifier into the caller's document and resolves with that document. -/
theorem insertOne_copies_issued_id (input : Document) (res : InsertResult)
    (_hid : input._id = none) (hn : res.n = 1) :
    insertOneCallback input false res =
      ({ input with _id := some res.insertedId },
       PromiseOutcome.resolved { input with _id := some res.insertedId }) := by
  simp [insertOneCallback, hn]

/-- C7 witness: the insert theorem at a fresh one-field document and a
successful insert result issuing a concrete ObjectID. -/
theorem insertOne_copies_issued_id_witness :
    ({ _id := none, fields := [("name", 1)] } : Document)._id = none ∧
    ({ n := 1, insertedId := IdVal.objId "aa" } : InsertResult).n = 1 ∧
    insertOneCallback { _id := none, fields := [("name", 1)] } false
        { n := 1, insertedId := IdVal.objId "aa" } =
      ({ _id := some (IdVal.objId "aa"), fields := [("name", 1)] },
       PromiseOutcome.resolved
         { _id := some (IdVal.objId "aa"), fields := [("name", 1)] }) :=
  ⟨rfl, rfl,
   insertOne_copies_issued_id { _id := none, fields := [("name", 1)] }
     { n := 1, insertedId := IdVal.objId "aa" } rfl rfl⟩

/-- C8: with `justOne` omitted, `remove` asks the store to remove with
justOne = true; more generally the justOne value sent to the store is
falsy exactly when the caller passed the literal false, so only an
explicit false removes all matches. -/
theorem remove_justOne_defaults_true (query : Option Document) (a : JSArg) :
    (removeStoreCall query JSArg.undef).justOne = JSArg.jsBool true ∧
    (jsArgTruthy (removeStoreCall query a).justOne = false ↔
      a = JSArg.jsBool false) := by
  refine ⟨rfl, ?_⟩
  cases a with
  | undef => simp [removeStoreCall, jsArgTruthy]
  | jsBool b => cases b <;> simp [removeStoreCall, jsArgTruthy]
  | jsNum n => by_cases h : n = 0 <;> simp [removeStoreCall, jsArgTruthy, h]
  | jsStr s => by_cases h : s = "" <;> simp [removeStoreCall, jsArgTruthy, h]

/-- C8 witness: the defaulting theorem at an absent query object and an
explicit false justOne argument. -/
theorem remove_justOne_defaults_true_witness :
    (removeStoreCall none JSArg.undef).justOne = JSArg.jsBool true ∧
    (jsArgTruthy (removeStoreCall none (JSArg.jsBool false)).justOne = false ↔
      JSArg.jsBool false = JSArg.jsBool false) :=
  remove_justOne_defaults_true none (JSArg.jsBool false)

/-- C9: a `pull` call whose pullSpec argument is missing or not an object
is rejected by the synchronous validation, and no store update is issued. -/
theorem pull_non_object_rejects (findObj : Option Document) (pullObj : PullArg)
    (h : ∀ d, pullObj ≠ PullArg.objv d) :
    pull findObj pullObj =
      PullOutcome.rejectedValidation "pullObj param must be of type object." ∧
    (pull findObj pullObj).isStoreCall = false := by
  cases pullObj with
  | objv d => exact absurd rfl (h d)
  | undef => exact ⟨rfl, rfl⟩
  | jsNull => exact ⟨rfl, rfl⟩
  | prim t => cases t <;> exact ⟨rfl, rfl⟩

/-- C9 witness: the validation theorem at an omitted pullSpec argument. -/
theorem pull_non_object_rejects_witness :
    pull none PullArg.undef =
      PullOutcome.rejectedValidation "pullObj param must be of type object." ∧
    (pull none PullArg.undef).isStoreCall = false :=
  pull_non_object_rejects none PullArg.undef (fun _d hd => PullArg.noConfusion hd)

/-- C10: a `find` call whose filter holds a string-typed identifier leaves
the caller's filter mutated in place: afterwards its identifier member is
the store's native ObjectID and no longer the original string. -/
theorem find_mutates_string_id_filter {α : Type} (query : Document) (s : String)
    (limit page : JSNum) (error : Bool) (data : List α)
    (h : query._id = some (IdVal.strId s)) :
    (find query limit page error data).1._id = some (IdVal.objId s) ∧
    (find query limit page error data).1._id ≠ some (IdVal.strId s) := by
  have hq : (find query limit page error data).1._id = some (IdVal.objId s) := by
    show (findNormalizeQuery query)._id = some (IdVal.objId s)
    unfold findNormalizeQuery
    rw [h]
    rfl
  exact ⟨hq, by rw [hq]; simp⟩

/-- C10 witness: the filter-mutation theorem at a filter whose identifier
is the hexadecimal string "abc". -/
theorem find_mutates_string_id_filter_witness :
    ({ _id := some (IdVal.strId "abc"), fields := [] } : Document)._id =
      some (IdVal.strId "abc") ∧
    ((find { _id := some (IdVal.strId "abc"), fields := [] } none none false
        ([] : List Nat)).1._id = some (IdVal.objId "abc") ∧
     (find { _id := some (IdVal.strId "abc"), fields := [] } none none false
        ([] : List Nat)).1._id ≠ some (IdVal.strId "abc")) :=
  ⟨rfl,
   find_mutates_string_id_filter { _id := some (IdVal.strId "abc"), fields := [] }
     "abc" none none false ([] : List Nat) rfl⟩
